import Mathlib

/-!
Verification development for the Spotify unauthenticated-flow test suite
(`tests/episode-01-spotify-unauthenticated-flow.spec.ts`).

The suite drives an external rendered page.  We embed the rendered page as a
flat list of elements in document order; every Playwright locator the test
uses becomes a filter over that list, and every awaited locator operation
becomes an explicit success-or-failure value.  Playwright locator operations
are strict: any operation that targets one element (waitFor, expect.toBeVisible,
click, textContent) fails when the locator resolves to more than one element,
while `first()` and `count()` do not.  Timeouts on a fixed page state reduce to
"the locator never resolves to a visible element".
-/

namespace SpotifyFlow

/-- Substring occurrence on character lists: `charsContain pat s` is true iff
`pat` occurs contiguously in `s`. -/
def charsContain (pat : List Char) : List Char → Bool
  | [] => pat.isEmpty
  | c :: rest => pat.isPrefixOf (c :: rest) || charsContain pat rest

/-- Predicate `strContains s pat`: `pat` occurs in `s` (case sensitive), as in the CSS
attribute selector `[attr*=pat]` or `String.prototype.includes`. -/
def strContains (s pat : String) : Bool :=
  charsContain pat.data s.data

/-- ASCII lower-casing, mirroring the `i` flag of the regular expressions and
the case-insensitive text selectors used by the test. -/
def strLower (s : String) : String :=
  ⟨s.data.map Char.toLower⟩

/-- Predicate `ciContains s pat`: case-insensitive substring occurrence, the matching rule
of Playwright `getByText` without `exact` and of `text=` selectors. -/
def ciContains (s pat : String) : Bool :=
  strContains (strLower s) (strLower pat)

/-- Whitespace trimming over the character list, mirroring `String.prototype.trim`
and the trimming Playwright applies in exact text matching. -/
def trimChars (l : List Char) : List Char :=
  ((l.dropWhile Char.isWhitespace).reverse.dropWhile Char.isWhitespace).reverse

/-- String trim used by `buttonText?.trim()` and by exact text matching. -/
def strTrim (s : String) : String :=
  ⟨trimChars s.data⟩

/-- One rendered element, carrying exactly the observable attributes the test
queries: tag, ARIA role, `data-testid`, `class`, `title`, text content,
`aria-label`, `placeholder`, input value, visibility, enabledness,
editability, focus, and whether the element sits inside the tracklist area
(`[data-testid="tracklist"], .tracklist, [role="grid"]`). -/
structure Element where
  tag : String := ""
  role : String := ""
  testId : String := ""
  cssClass : String := ""
  title : String := ""
  text : String := ""
  ariaLabel : String := ""
  placeholder : String := ""
  value : String := ""
  visible : Bool := false
  enabled : Bool := false
  editable : Bool := false
  focused : Bool := false
  inTracklist : Bool := false
  deriving Repr, DecidableEq

/-- A rendered page: its elements in document order. -/
abbrev Page := List Element

/-- The operations the test performs against the rendered page while probing
and acting.  Only `click` and `fill` mutate page state. -/
inductive PageOp where
  | query
  | waitVisible
  | isVisibleCheck
  | countCheck
  | readText
  | readAttr
  | click
  | fill
  deriving Repr, DecidableEq

/-- Read-only classification of page operations. -/
def PageOp.readOnly : PageOp → Bool
  | .click => false
  | .fill => false
  | _ => true

/-- Is an `Except` value a success. -/
def isOkE {α : Type} (x : Except String α) : Bool :=
  match x with
  | .ok _ => true
  | .error _ => false

-- String constants of the test (selectors, texts, messages, strategy names).

def darkSideText : String := "The Dark Side of the Moon"
def escuteText : String := "Escute com uma conta gratuita do Spotify"
def queryText : String := "pink floyd"
def tidLanguageButton : String := "language-selection-button"
def tidPtBROption : String := "language-option-pt-BR"
def tidSearchInput : String := "search-input"
def tidCard : String := "card"
def tidAlbumTitle : String := "album-title"
def tidEntityTitle : String := "entity-title"
def tidTracklist : String := "tracklist"
def strAlbumPath : String := "/album/"
def strSpotifyHost : String := "open.spotify.com"
def strSpotifyWord : String := "Spotify"
def strPlay : String := "Play"
def strPlayLower : String := "play"
def strSearchFrag : String := "search"
def strLanguageFrag : String := "language"
def clsLanguageDropdown : String := "language-dropdown"
def clsSearchSuggestions : String := "search-suggestions"
def tagButton : String := "button"
def tagH1 : String := "h1"
def roleListbox : String := "listbox"
def roleMenu : String := "menu"
def roleOption : String := "option"
def roleMenuitem : String := "menuitem"

def msgTimeout : String := "Timeout exceeded waiting for locator to be visible"
def msgStrict : String := "strict mode violation: locator resolved to multiple elements"
def msgNotActionable : String := "element is not actionable"
def msgVisibleAssert : String := "expected element to be visible"
def msgEnabledAssert : String := "expected element to be enabled"
def msgEditableAssert : String := "expected element to be editable"
def msgFocusedAssert : String := "expected element to be focused"
def msgTextAssert : String := "expected element text to be truthy and non-empty"
def msgMatchAssert : String := "expected text to match The Dark Side of the Moon"
def msgValueAssert : String := "expected search input to have the typed value"
def msgUrlAssert : String := "expected URL to contain open.spotify.com"
def msgTitleAssert : String := "expected page title to match Spotify"
def msgUrlAlbumAssert : String := "expected URL to contain /album/"
def msgNoRolePlay : String := "Main play button not found by role"
def msgNoStrategies : String := "no strategies attempted"

def nExact : String := "exact text match"
def nPartialText : String := "partial text match"
def nTitleAttr : String := "title attribute"
def nCardFallback : String := "data-testid + text filter fallback"
def nRolePlay : String := "role-based main play button"
def nTextPlay : String := "text-based main play button"
def nFallbackPlay : String := "fallback - first visible Play button"

def ptWordSearch : String := "Pesquisar"
def ptWordLogin : String := "Entrar"
def ptWordSignup : String := "Criar conta"
def ptWordPortuguese : String := "Português"
def ptWordBrasil : String := "Brasil"

def altContaGratuita : String := "conta gratuita"
def altSpotifyGratuito : String := "Spotify gratuito"
def altEscute : String := "Escute"
def altInscrever : String := "Inscrever-se"
def altContaSpotify : String := "conta do Spotify"

def sNavigate : String := "Navigate to Spotify Web homepage"
def sLocateLanguage : String := "Locate and validate language selection button"
def sOpenMenu : String := "Open language selection menu"
def sSelectPtBR : String := "Select Portuguese (Brazil) language option"
def sValidateLanguage : String := "Validate language change took effect"
def sFocusSearch : String := "Locate and interact with search input field"
def sTypeQuery : String := "Type search query for Pink Floyd"
def sLocateAlbum : String := "Wait for search results and locate The Dark Side of the Moon album"
def sClickAlbum : String := "Click on The Dark Side of the Moon album"
def sPlayButton : String := "Locate and click the main album play button"
def sAuthModal : String := "Validate play action and handle authentication modal"
def sFinal : String := "Final validation and cleanup"

-- Locator primitives.

/-- Embedding of `page.getByTestId(id)`: elements whose `data-testid` equals `id`. -/
def getByTestId (p : Page) (id : String) : List Element :=
  p.filter (fun e => e.testId = id)

/-- Embedding of `page.getByText` with exact matching: trimmed text equals `s`. -/
def getByTextExact (p : Page) (s : String) : List Element :=
  p.filter (fun e => strTrim e.text = s)

/-- Embedding of `page.getByText(s)` and the `text=` locator: case-insensitive substring. -/
def getByTextLoose (p : Page) (s : String) : List Element :=
  p.filter (fun e => ciContains e.text s)

/-- Embedding of `locator.waitFor` with state visible on a fixed page: strict, so it
fails on zero matches (timeout), on a unique invisible match (timeout) and on
multiple matches (strict mode violation). -/
def waitForVisible (loc : List Element) : Except String Element :=
  match loc with
  | [] => .error msgTimeout
  | [e] => if e.visible then .ok e else .error msgTimeout
  | _ :: _ :: _ => .error msgStrict

/-- Embedding of `expect(locator).toBeVisible()`: same strict semantics, assertion flavour. -/
def expectVisible (loc : List Element) : Except String Element :=
  match loc with
  | [] => .error msgVisibleAssert
  | [e] => if e.visible then .ok e else .error msgVisibleAssert
  | _ :: _ :: _ => .error msgStrict

/-- Embedding of `locator.first().waitFor` with state visible: no strictness, the head of
the resolved list must exist and be visible. -/
def waitFirstVisible (loc : List Element) : Except String Element :=
  match loc.head? with
  | some e => if e.visible then .ok e else .error msgTimeout
  | none => .error msgTimeout

/-- Embedding of `locator.click()`: strict, and the element must be actionable
(visible and enabled). -/
def clickOn (loc : List Element) : Except String Unit :=
  match loc with
  | [] => .error msgTimeout
  | [e] => if e.visible && e.enabled then .ok () else .error msgNotActionable
  | _ :: _ :: _ => .error msgStrict

/-- Embedding of `try { body } catch { handler }` where the handler only logs and recovers:
the combined computation takes the handler result when the body throws. -/
def tryCatchU {α : Type} (body : Except String α) (handler : Except String Unit) :
    Except String Unit :=
  match body with
  | .ok _ => .ok ()
  | .error _ => handler

-- The resilient locator resolver for the target album (spec.ts lines 285-313).

/-- Probe outcome of one strategy: the resolved element or the thrown error,
plus the page operations the probe performed. -/
abbrev ProbeResult := Except String Element × List PageOp

/-- A named candidate strategy: name plus probe against the rendered page. -/
abbrev Strategy := String × (Page → ProbeResult)

/-- Operations of a probe that is a single awaited `waitFor`. -/
def probeOps : List PageOp := [PageOp.waitVisible]

/-- Strategy 1: `page.getByText` with the exact album name and exact matching,
followed by a 5000ms visibility wait. -/
def darkProbe1 (p : Page) : ProbeResult :=
  (waitForVisible (getByTextExact p darkSideText), probeOps)

/-- Strategy 2: the `text=` locator with the album name followed by
a 3000ms visibility wait. -/
def darkProbe2 (p : Page) : ProbeResult :=
  (waitForVisible (getByTextLoose p darkSideText), probeOps)

/-- Elements matching `[title*="The Dark Side of the Moon"]`. -/
def titleAlbumLocator (p : Page) : List Element :=
  p.filter (fun e => strContains e.title darkSideText)

/-- Strategy 3: the title-attribute substring locator for the album name
followed by a 3000ms visibility wait. -/
def darkProbe3 (p : Page) : ProbeResult :=
  (waitForVisible (titleAlbumLocator p), probeOps)

/-- Elements matching `[data-testid*="card"]` filtered by
a hasText filter for the album name. -/
def cardLocator (p : Page) : List Element :=
  p.filter (fun e => strContains e.testId tidCard && ciContains e.text darkSideText)

/-- Strategy 4: the `data-testid` pattern with text filter, followed by
a 3000ms visibility wait. -/
def darkProbe4 (p : Page) : ProbeResult :=
  (waitForVisible (cardLocator p), probeOps)

/-- The ordered strategy list of the album resolution (priority order of the
nested try/catch chain). -/
def darkSideStrategies : List Strategy :=
  [(nExact, darkProbe1), (nPartialText, darkProbe2),
   (nTitleAttr, darkProbe3), (nCardFallback, darkProbe4)]

/-- Result of one resolution attempt: the located element together with the
name of the strategy that matched (or the propagated error once the chain is
exhausted), the names of the strategies attempted in attempt order, and the
page operations performed while probing. -/
structure ResolveOutcome where
  result : Except String (Element × String)
  attempted : List String
  ops : List PageOp
  deriving Repr

/-- The name of the winning strategy of a resolution, if any. -/
def winningStrategy (o : ResolveOutcome) : Option String :=
  match o.result with
  | .ok (_, n) => some n
  | .error _ => none

/-- The album resolution: the nested try/catch cascade of spec.ts lines
285-313, strategy by strategy.  A strategy whose wait lapses (or violates
strict mode) is caught and the next strategy is tried; the error of the last
strategy propagates when every strategy has failed. -/
def resolveDarkSideAlbum (p : Page) : ResolveOutcome :=
  match (darkProbe1 p).1 with
  | .ok e => ⟨.ok (e, nExact), [nExact], (darkProbe1 p).2⟩
  | .error _ =>
    match (darkProbe2 p).1 with
    | .ok e => ⟨.ok (e, nPartialText), [nExact, nPartialText],
        (darkProbe1 p).2 ++ (darkProbe2 p).2⟩
    | .error _ =>
      match (darkProbe3 p).1 with
      | .ok e => ⟨.ok (e, nTitleAttr), [nExact, nPartialText, nTitleAttr],
          (darkProbe1 p).2 ++ ((darkProbe2 p).2 ++ (darkProbe3 p).2)⟩
      | .error _ =>
        match (darkProbe4 p).1 with
        | .ok e => ⟨.ok (e, nCardFallback),
            [nExact, nPartialText, nTitleAttr, nCardFallback],
            (darkProbe1 p).2 ++ ((darkProbe2 p).2 ++ ((darkProbe3 p).2 ++ (darkProbe4 p).2))⟩
        | .error msg => ⟨.error msg,
            [nExact, nPartialText, nTitleAttr, nCardFallback],
            (darkProbe1 p).2 ++ ((darkProbe2 p).2 ++ ((darkProbe3 p).2 ++ (darkProbe4 p).2))⟩

-- The main play button resolver (spec.ts lines 411-465).

/-- An element that `page.getByRole` matches for the button role. -/
def isButtonRole (e : Element) : Bool :=
  e.tag = tagButton || e.role = tagButton

/-- The accessible name used by the role locator with the anchored Play name pattern:
the `aria-label` when present, otherwise the text content. -/
def accName (e : Element) : String :=
  if e.ariaLabel = "" then e.text else e.ariaLabel

/-- The buttons whose accessible name matches the anchored case-insensitive Play pattern. -/
def rolePlayButtons (p : Page) : List Element :=
  p.filter (fun e => isButtonRole e && strLower (accName e) = strPlayLower)

/-- The tracklist-area button locator with the anchored Play text pattern: button elements
inside the tracklist area whose text matches the anchored pattern. -/
def tracklistPlayButtons (p : Page) : List Element :=
  p.filter (fun e => e.inTracklist && e.tag = tagButton && strLower e.text = strPlayLower)

/-- The page-wide button locator filtered by the anchored Play text pattern. -/
def playTextButtons (p : Page) : List Element :=
  p.filter (fun e => e.tag = tagButton && strLower e.text = strPlayLower)

/-- Operations of play-button strategy 1: one `count()` over the tracklist
area and one `isVisible()` on the first role-named candidate. -/
def mainOps1 : List PageOp := [PageOp.countCheck, PageOp.isVisibleCheck]

/-- Play-button strategy 1 (spec.ts lines 421-434): take the first button with
accessible name `Play`, count `Play`-text buttons inside the tracklist area,
and accept the candidate only when it is visible and that count is zero;
otherwise throw `Main play button not found by role`. -/
def mainProbe1 (p : Page) : ProbeResult :=
  match (rolePlayButtons p).head? with
  | some e =>
    if e.visible && (tracklistPlayButtons p).isEmpty then (.ok e, mainOps1)
    else (.error msgNoRolePlay, mainOps1)
  | none => (.error msgNoRolePlay, mainOps1)

/-- Play-button strategy 2 (spec.ts lines 436-441): first button filtered by
exact `Play` text, asserted visible. -/
def mainProbe2 (p : Page) : ProbeResult :=
  match (playTextButtons p).head? with
  | some e =>
    if e.visible then (.ok e, probeOps) else (.error msgVisibleAssert, probeOps)
  | none => (.error msgVisibleAssert, probeOps)

/-- The scan of play-button strategy 3 (spec.ts lines 446-459): walk every
button in document order, read its text, and take the first whose trimmed
text is exactly `Play` and which is visible.  The visibility read only
happens for buttons whose text already matched, mirroring the short-circuit
of the source conjunction. -/
def fallbackScan : List Element → Option Element × List PageOp
  | [] => (none, [])
  | e :: rest =>
    if strTrim e.text = strPlay then
      if e.visible then (some e, [PageOp.readText, PageOp.isVisibleCheck])
      else
        let o := fallbackScan rest
        (o.1, PageOp.readText :: PageOp.isVisibleCheck :: o.2)
    else
      let o := fallbackScan rest
      (o.1, PageOp.readText :: o.2)

/-- Embedding of the line-468 `expect(mainPlayButton).toBeVisible()` as it
applies after an exhausted cascade, when the `mainPlayButton` variable still
holds the stale strategy-2 locator assigned at line 438 (the first button
with `Play` text, via `first()`). -/
def staleLocatorAssert (p : Page) : Except String Element :=
  match (playTextButtons p).head? with
  | some e => if e.visible then .ok e else .error msgVisibleAssert
  | none => .error msgVisibleAssert

/-- Play-button strategy 3: the fallback loop over every button role element.
When the scan finds nothing, the source does NOT throw: the line-462 throw
guarded by the falsiness test of `mainPlayButton` is unreachable dead code,
because line 438 had already reassigned that variable to the (always truthy)
strategy-2 locator before the strategy-2 expect could throw.  The exhausted
cascade therefore completes normally with the variable holding that stale
locator, and the resolution then fails at the line-468 visibility assertion
on it (`staleLocatorAssert`); strategy 2 having already failed against the
same rendered page, that assertion necessarily fails with the
visibility-assertion error, which is the error recorded here for a scan
miss (`stale_assert_fails` proves the substitution exact). -/
def mainProbe3 (p : Page) : ProbeResult :=
  let o := fallbackScan (p.filter isButtonRole)
  match o.1 with
  | some e => (.ok e, PageOp.countCheck :: o.2)
  | none => (.error msgVisibleAssert, PageOp.countCheck :: o.2)

/-- The ordered strategy list of the play-button resolution. -/
def mainPlayStrategies : List Strategy :=
  [(nRolePlay, mainProbe1), (nTextPlay, mainProbe2), (nFallbackPlay, mainProbe3)]

/-- The play-button resolution: the nested try/catch cascade of spec.ts lines
421-465.  On total exhaustion the cascade completes without throwing (the
explicit line-462 throw is dead code) and the resolution fails with the
error of the line-468 visibility assertion on the stale strategy-2 locator,
as recorded by the scan-miss branch of `mainProbe3`. -/
def resolveMainPlayButton (p : Page) : ResolveOutcome :=
  match (mainProbe1 p).1 with
  | .ok e => ⟨.ok (e, nRolePlay), [nRolePlay], (mainProbe1 p).2⟩
  | .error _ =>
    match (mainProbe2 p).1 with
    | .ok e => ⟨.ok (e, nTextPlay), [nRolePlay, nTextPlay],
        (mainProbe1 p).2 ++ (mainProbe2 p).2⟩
    | .error _ =>
      match (mainProbe3 p).1 with
      | .ok e => ⟨.ok (e, nFallbackPlay), [nRolePlay, nTextPlay, nFallbackPlay],
          (mainProbe1 p).2 ++ ((mainProbe2 p).2 ++ (mainProbe3 p).2)⟩
      | .error msg => ⟨.error msg, [nRolePlay, nTextPlay, nFallbackPlay],
          (mainProbe1 p).2 ++ ((mainProbe2 p).2 ++ (mainProbe3 p).2)⟩

/-- The generic priority-ordered strategy runner: evaluate strategies in list
order, accept the first success, fall through on failure, and propagate the
most recent error when the list is exhausted.  `last` carries the error of the
previously failed strategy.  Both resolver cascades are instances of this
runner over their strategy lists. -/
def runStrategies (p : Page) : List Strategy → String → ResolveOutcome
  | [], last => ⟨.error last, [], []⟩
  | s :: rest, _ =>
    match (s.2 p).1 with
    | .ok e => ⟨.ok (e, s.1), [s.1], (s.2 p).2⟩
    | .error msg =>
      let o := runStrategies p rest msg
      ⟨o.result, s.1 :: o.attempted, (s.2 p).2 ++ o.ops⟩

/-- Necessary condition for an error payload to list a set of strategy names:
every name occurs in the payload. -/
def listsStrategies (msg : String) (names : List String) : Bool :=
  names.all (fun n => strContains msg n)

-- The scenario driver: the twelve `test.step` calls of the journey.

/-- The session as the journey observes it: the URL and title after
navigation, and the rendered page at each phase the steps interrogate
(each awaited page-engine settle point yields the next page state). -/
structure Env where
  homeUrl : String
  homeTitle : String
  homePage : Page
  menuPage : Page
  ptBRPage : Page
  focusedPage : Page
  typedPage : Page
  resultsPage : Page
  albumUrl : String
  albumPage : Page
  afterPlayPage : Page
  finalUrl : String
  finalPage : Page

/-- Step 1: navigate to the homepage and assert the URL matches
`/open\.spotify\.com/` and the title matches `/Spotify/i`. -/
def navigateStep (env : Env) : Except String Unit :=
  if strContains env.homeUrl strSpotifyHost then
    if ciContains env.homeTitle strSpotifyWord then .ok () else .error msgTitleAssert
  else .error msgUrlAssert

/-- Step 2: assert the language-selection button is visible, enabled, and has
truthy, non-blank text. -/
def locateLanguageButtonStep (env : Env) : Except String Unit :=
  match expectVisible (getByTestId env.homePage tidLanguageButton) with
  | .error m => .error m
  | .ok e =>
    if e.enabled then
      if e.text = "" then .error msgTextAssert
      else if 0 < (strTrim e.text).length then .ok () else .error msgTextAssert
    else .error msgEnabledAssert

/-- The dropdown locator of step 3:
`[role="listbox"], [role="menu"], .language-dropdown, [data-testid*="language"]`. -/
def dropdownLocator (p : Page) : List Element :=
  p.filter (fun e => e.role = roleListbox || e.role = roleMenu ||
    strContains e.cssClass clsLanguageDropdown || strContains e.testId strLanguageFrag)

/-- The options locator of step 3: `[role="option"], [role="menuitem"]`. -/
def optionsLocator (p : Page) : List Element :=
  p.filter (fun e => e.role = roleOption || e.role = roleMenuitem)

/-- Embedding of `Promise.race` of the two first-element visibility waits of step 3. -/
def raceVisible (a b : List Element) : Except String Element :=
  match waitFirstVisible a with
  | .ok e => .ok e
  | .error _ => waitFirstVisible b

/-- Step 3: click the language button; the dropdown observation that follows
is wrapped in try/catch whose handler only captures evidence, so its failure
is absorbed. -/
def openLanguageMenuStep (env : Env) : Except String Unit :=
  match clickOn (getByTestId env.homePage tidLanguageButton) with
  | .error m => .error m
  | .ok _ =>
    tryCatchU (raceVisible (dropdownLocator env.menuPage) (optionsLocator env.menuPage))
      (.ok ())

/-- Step 4: assert the pt-BR option is visible, enabled and has truthy,
non-blank text, then click it. -/
def selectPtBRStep (env : Env) : Except String Unit :=
  match expectVisible (getByTestId env.menuPage tidPtBROption) with
  | .error m => .error m
  | .ok e =>
    if e.enabled then
      if e.text = "" then .error msgTextAssert
      else if 0 < (strTrim e.text).length then
        clickOn (getByTestId env.menuPage tidPtBROption)
      else .error msgTextAssert
    else .error msgEnabledAssert

/-- The Portuguese indicator locator of step 5:
`text=/Pesquisar|Entrar|Criar conta|Português|Brasil/i`. -/
def portugueseElems (p : Page) : List Element :=
  p.filter (fun e =>
    ciContains e.text ptWordSearch || ciContains e.text ptWordLogin ||
    ciContains e.text ptWordSignup || ciContains e.text ptWordPortuguese ||
    ciContains e.text ptWordBrasil)

/-- Step 5: assert the language button is still visible; the Portuguese-text
observation is wrapped in try/catch whose handler only logs, so its failure is
absorbed. -/
def validateLanguageStep (env : Env) : Except String Unit :=
  match expectVisible (getByTestId env.ptBRPage tidLanguageButton) with
  | .error m => .error m
  | .ok _ =>
    tryCatchU (waitFirstVisible (portugueseElems env.ptBRPage)) (.ok ())

/-- Step 6: assert the search input is visible, enabled, editable, with a
truthy placeholder; click it and assert it is focused. -/
def focusSearchStep (env : Env) : Except String Unit :=
  match expectVisible (getByTestId env.ptBRPage tidSearchInput) with
  | .error m => .error m
  | .ok e =>
    if e.enabled then
      if e.editable then
        if e.placeholder = "" then .error msgTextAssert
        else
          match clickOn (getByTestId env.ptBRPage tidSearchInput) with
          | .error m => .error m
          | .ok _ =>
            match getByTestId env.focusedPage tidSearchInput with
            | [f] => if f.focused then .ok () else .error msgFocusedAssert
            | [] => .error msgFocusedAssert
            | _ :: _ :: _ => .error msgStrict
      else .error msgEditableAssert
    else .error msgEnabledAssert

/-- Actionability of `clear()` and `fill()`: strict, and the element must be
visible, enabled and editable. -/
def clearFillOn (loc : List Element) : Except String Unit :=
  match loc with
  | [] => .error msgTimeout
  | [e] => if e.visible && e.enabled && e.editable then .ok () else .error msgNotActionable
  | _ :: _ :: _ => .error msgStrict

/-- The suggestion locator of step 7:
`[data-testid*="search"], [role="listbox"], .search-suggestions`. -/
def suggestionLocator (p : Page) : List Element :=
  p.filter (fun e => strContains e.testId strSearchFrag || e.role = roleListbox ||
    strContains e.cssClass clsSearchSuggestions)

/-- Step 7: clear and fill the search input with `pink floyd`, assert the
value; the suggestion observation is wrapped in try/catch whose handler only
logs, so its failure is absorbed. -/
def typeQueryStep (env : Env) : Except String Unit :=
  match clearFillOn (getByTestId env.focusedPage tidSearchInput) with
  | .error m => .error m
  | .ok _ =>
    match clearFillOn (getByTestId env.focusedPage tidSearchInput) with
    | .error m => .error m
    | .ok _ =>
      match getByTestId env.typedPage tidSearchInput with
      | [e] =>
        if e.value = queryText then
          tryCatchU (waitFirstVisible (suggestionLocator env.typedPage)) (.ok ())
        else .error msgValueAssert
      | [] => .error msgValueAssert
      | _ :: _ :: _ => .error msgStrict

/-- Step 8: run the album strategy cascade on the results page, then assert
the located element is visible, its text matches the album name, and it is
enabled. -/
def locateAlbumStep (env : Env) : Except String Unit :=
  match (resolveDarkSideAlbum env.resultsPage).result with
  | .error m => .error m
  | .ok (e, _) =>
    if e.visible then
      if ciContains e.text darkSideText then
        if e.enabled then .ok () else .error msgEnabledAssert
      else .error msgMatchAssert
    else .error msgVisibleAssert

/-- The two-way locate of step 9: exact text first, with the title-attribute
`first()` fallback in the catch. -/
def locateAlbumForClick (p : Page) : Except String Element :=
  match expectVisible (getByTextExact p darkSideText) with
  | .ok e => .ok e
  | .error _ =>
    match (titleAlbumLocator p).head? with
    | some e => if e.visible then .ok e else .error msgVisibleAssert
    | none => .error msgVisibleAssert

/-- The four album-page title indicators of step 9. -/
def albumIndicators (p : Page) : List (List Element) :=
  [p.filter (fun e => e.tag = tagH1 && ciContains e.text darkSideText),
   getByTestId p tidAlbumTitle,
   getByTestId p tidEntityTitle,
   getByTextLoose p darkSideText]

/-- The indicator loop of step 9: each iteration waits for one indicator and
checks its text, with both failures caught and turned into `continue`. -/
def confirmAlbumPage : List (List Element) → Bool
  | [] => false
  | loc :: rest =>
    match waitForVisible loc with
    | .ok e => if ciContains e.text darkSideText then true else confirmAlbumPage rest
    | .error _ => confirmAlbumPage rest

/-- Step 9: locate the album entry, assert it is enabled, click it, assert the
new URL contains `/album/`; the album-title confirmation loop is soft and its
outcome only feeds a log line. -/
def clickAlbumStep (env : Env) : Except String Unit :=
  match locateAlbumForClick env.resultsPage with
  | .error m => .error m
  | .ok e =>
    if e.enabled then
      if e.visible && e.enabled then
        if strContains env.albumUrl strAlbumPath then
          let _ := confirmAlbumPage (albumIndicators env.albumPage)
          .ok ()
        else .error msgUrlAlbumAssert
      else .error msgNotActionable
    else .error msgEnabledAssert

/-- Step 10 with its page-operation trace: run the play-button cascade, assert
the winner visible and enabled, read its text and `aria-label`, then click it.
The click is the only mutating operation and happens only after the
resolution has succeeded. -/
def locateAndClickPlayStep (p : Page) : Except String Unit × List PageOp :=
  let r := resolveMainPlayButton p
  match r.result with
  | .error m => (.error m, r.ops)
  | .ok (e, _) =>
    if e.visible then
      if e.enabled then
        (.ok (), r.ops ++ [PageOp.readText, PageOp.readAttr, PageOp.click])
      else (.error msgEnabledAssert, r.ops)
    else (.error msgVisibleAssert, r.ops)

/-- Step 10 as a journey step. -/
def playButtonStep (env : Env) : Except String Unit :=
  (locateAndClickPlayStep env.albumPage).1

/-- The alternative Portuguese patterns of step 11, in source order. -/
def altPatterns : List String :=
  [altContaGratuita, altSpotifyGratuito, altEscute, altInscrever, ptWordLogin,
   altContaSpotify]

/-- The fallback loop of step 11: try each alternative pattern with a bounded
wait, stopping at the first that is observed; every failure is caught and
turned into `continue`. -/
def findAltPattern (p : Page) : List String → Option String
  | [] => none
  | pat :: rest =>
    match waitForVisible (getByTextLoose p pat) with
    | .ok _ => some pat
    | .error _ => findAltPattern p rest

/-- Step 11: wait for the Portuguese authentication prompt; on failure fall
back to the alternative-pattern loop.  Both branches end in logging and
evidence capture only, so the step always succeeds. -/
def validateAuthStep (env : Env) : Except String Unit :=
  match waitForVisible (getByTextLoose env.afterPlayPage escuteText) with
  | .ok _ => .ok ()
  | .error _ =>
    let _ := findAltPattern env.afterPlayPage altPatterns
    .ok ()

/-- The key-elements locator of step 12:
`h1, [data-testid="album-title"], [data-testid="tracklist"]`. -/
def albumKeyElems (p : Page) : List Element :=
  p.filter (fun e => e.tag = tagH1 || e.testId = tidAlbumTitle || e.testId = tidTracklist)

/-- Step 12: assert the final URL still contains the host and `/album/`; the
key-element count only feeds a log line. -/
def finalStep (env : Env) : Except String Unit :=
  if strContains env.finalUrl strSpotifyHost then
    if strContains env.finalUrl strAlbumPath then
      let _ := (albumKeyElems env.finalPage).length
      .ok ()
    else .error msgUrlAlbumAssert
  else .error msgUrlAssert

/-- A named journey step. -/
abbrev JStep := String × (Env → Except String Unit)

/-- Outcome of a run: the first error if any step failed (otherwise success),
plus the names of the steps that were invoked, in invocation order. -/
structure RunResult where
  outcome : Except String Unit
  executed : List String
  deriving Repr

/-- The sequential step runner: each step is invoked only after every previous
step succeeded, a failing step terminates the run with its error, and no step
is ever re-invoked. -/
def runSteps (env : Env) : List JStep → RunResult
  | [] => ⟨.ok (), []⟩
  | st :: rest =>
    match st.2 env with
    | .ok _ =>
      let o := runSteps env rest
      ⟨o.outcome, st.1 :: o.executed⟩
    | .error msg => ⟨.error msg, [st.1]⟩

/-- The ordered journey, with the `test.step` titles of the source. -/
def journeySteps : List JStep :=
  [(sNavigate, navigateStep),
   (sLocateLanguage, locateLanguageButtonStep),
   (sOpenMenu, openLanguageMenuStep),
   (sSelectPtBR, selectPtBRStep),
   (sValidateLanguage, validateLanguageStep),
   (sFocusSearch, focusSearchStep),
   (sTypeQuery, typeQueryStep),
   (sLocateAlbum, locateAlbumStep),
   (sClickAlbum, clickAlbumStep),
   (sPlayButton, playButtonStep),
   (sAuthModal, validateAuthStep),
   (sFinal, finalStep)]

/-- One full test run. -/
def runJourney (env : Env) : RunResult :=
  runSteps env journeySteps

-- Concrete session states used to evaluate the development on closed inputs.

/-- The language-selection button as rendered on the home page. -/
def langBtnHome : Element :=
  { testId := tidLanguageButton, text := "English", visible := true, enabled := true }

/-- The pt-BR option inside the opened language menu. -/
def ptOptionEl : Element :=
  { testId := tidPtBROption, role := roleOption, text := "Português do Brasil",
    visible := true, enabled := true }

/-- The search input before interaction. -/
def searchInputIdle : Element :=
  { testId := tidSearchInput, placeholder := "Search", visible := true,
    enabled := true, editable := true }

/-- The search input after the focusing click. -/
def searchInputFocused : Element :=
  { searchInputIdle with focused := true }

/-- The search input after the query has been filled. -/
def searchInputTyped : Element :=
  { searchInputFocused with value := queryText }

/-- The search input after typing, on a rendering where it is not visible. -/
def searchInputHidden : Element :=
  { searchInputTyped with visible := false }

/-- The album entry in the search results. -/
def albumCard : Element :=
  { text := darkSideText, visible := true, enabled := true }

/-- The main play button of the album page, outside the tracklist. -/
def mainPlayBtn : Element :=
  { tag := tagButton, text := strPlay, visible := true, enabled := true }

/-- A per-track play button inside the tracklist area. -/
def trackRowPlayBtn : Element :=
  { tag := tagButton, text := strPlay, visible := true, enabled := true,
    inTracklist := true }

/-- An unrelated visible banner that matches none of the Portuguese patterns. -/
def premiumBanner : Element :=
  { text := "Premium", visible := true }

/-- The album page URL of the happy run. -/
def albumUrlHappy : String := "https://open.spotify.com/album/4LH4d3cOWNNsVw41Gqt2kv"

/-- A full session trace on which every mandatory assertion of the journey
holds, while the after-play page shows no authentication prompt at all. -/
def envHappy : Env :=
  { homeUrl := "https://open.spotify.com/",
    homeTitle := "Spotify - Web Player",
    homePage := [langBtnHome],
    menuPage := [ptOptionEl],
    ptBRPage := [langBtnHome, searchInputIdle],
    focusedPage := [searchInputFocused],
    typedPage := [searchInputTyped],
    resultsPage := [albumCard],
    albumUrl := albumUrlHappy,
    albumPage := [mainPlayBtn],
    afterPlayPage := [premiumBanner],
    finalUrl := albumUrlHappy,
    finalPage := [mainPlayBtn] }

/-- The happy trace with the typed search input not visible (so the optional
suggestion wait lapses) and an empty after-play page (so the optional
authentication-text waits lapse). -/
def envSoft : Env :=
  { envHappy with typedPage := [searchInputHidden], afterPlayPage := [] }

/-- The happy trace except that clicking the album lands on a URL without an
album identifier. -/
def envBadUrl : Env :=
  { envHappy with albumUrl := "https://open.spotify.com/search" }

/-- The happy trace except that navigation lands off the expected host. -/
def envBadHost : Env :=
  { envHappy with homeUrl := "https://example.com/" }

/-- The empty page: every locator resolves to nothing. -/
def pEmpty : Page := []

/-- A results page where the exact album text matches two elements. -/
def pDup : Page := [albumCard, albumCard]

/-- An album page with a visible main play button outside the tracklist and a
per-track play button inside it. -/
def pTrackMix : Page := [mainPlayBtn, trackRowPlayBtn]

-- Shared lemmas about the runner, the cascades, and the soft blocks.

/-- A try/catch whose handler succeeds always succeeds. -/
lemma tryCatchU_ok {α : Type} (x : Except String α) : tryCatchU x (.ok ()) = .ok () := by
  cases x <;> rfl

/-- The album cascade is the generic priority runner on its strategy list. -/
lemma dark_eq (p : Page) :
    resolveDarkSideAlbum p = runStrategies p darkSideStrategies msgNoStrategies := by
  rcases h1 : (darkProbe1 p).1 with m1 | e1 <;>
    rcases h2 : (darkProbe2 p).1 with m2 | e2 <;>
      rcases h3 : (darkProbe3 p).1 with m3 | e3 <;>
        rcases h4 : (darkProbe4 p).1 with m4 | e4 <;>
          simp [resolveDarkSideAlbum, runStrategies, darkSideStrategies, h1, h2, h3, h4]

/-- The play-button cascade is the generic priority runner on its strategy
list. -/
lemma main_eq (p : Page) :
    resolveMainPlayButton p = runStrategies p mainPlayStrategies msgNoStrategies := by
  rcases h1 : (mainProbe1 p).1 with m1 | e1 <;>
    rcases h2 : (mainProbe2 p).1 with m2 | e2 <;>
      rcases h3 : (mainProbe3 p).1 with m3 | e3 <;>
        simp [resolveMainPlayButton, runStrategies, mainPlayStrategies, h1, h2, h3]

/-- If every strategy before `s` fails and `s` probes successfully, the runner
returns the element and name of `s` and the attempt trace stops at `s`. -/
lemma runStrategies_first (p : Page) (s : Strategy) (e : Element) :
    ∀ (pre post : List Strategy) (last : String),
      (∀ q ∈ pre, isOkE (q.2 p).1 = false) → (s.2 p).1 = .ok e →
      (runStrategies p (pre ++ s :: post) last).result = .ok (e, s.1) ∧
      (runStrategies p (pre ++ s :: post) last).attempted = pre.map Prod.fst ++ [s.1] := by
  intro pre
  induction pre with
  | nil =>
    intro post last _ hs
    simp [runStrategies, hs]
  | cons q pre ih =>
    intro post last h hs
    have hq := h q (List.mem_cons_self q pre)
    rcases hqe : (q.2 p).1 with m | e0
    · have h2 := ih post m (fun r hr => h r (List.mem_cons_of_mem q hr)) hs
      simp [runStrategies, hqe, h2.1, h2.2]
    · rw [hqe] at hq
      simp [isOkE] at hq

/-- A failed play-button strategy 3 always records the visibility-assertion
error (the error of the line-468 assert on the stale strategy-2 locator). -/
lemma mainProbe3_err (p : Page) (m : String) (h : (mainProbe3 p).1 = .error m) :
    m = msgVisibleAssert := by
  unfold mainProbe3 at h
  rcases hsc : (fallbackScan (p.filter isButtonRole)).1 with _ | e <;> simp [hsc] at h
  exact h.symm

/-- Once strategy 2 has failed against the rendered page, the line-468
visibility assertion on the stale strategy-2 locator necessarily fails with
the visibility-assertion error: the error recorded for an exhausted cascade
is exactly the error of that assertion. -/
lemma stale_assert_fails (p : Page) (h : isOkE (mainProbe2 p).1 = false) :
    staleLocatorAssert p = .error msgVisibleAssert := by
  rcases hh : (playTextButtons p).head? with _ | e
  · simp [staleLocatorAssert, hh]
  · by_cases hv : e.visible = true
    · simp [mainProbe2, hh, hv, isOkE] at h
    · simp [staleLocatorAssert, hh, hv]

/-- The operation trace of play-button strategy 1 is fixed. -/
lemma mainProbe1_ops (p : Page) : (mainProbe1 p).2 = mainOps1 := by
  unfold mainProbe1
  rcases (rolePlayButtons p).head? with _ | e
  · rfl
  · by_cases hv : (e.visible && (tracklistPlayButtons p).isEmpty) = true <;> simp [hv]

/-- The operation trace of play-button strategy 2 is fixed. -/
lemma mainProbe2_ops (p : Page) : (mainProbe2 p).2 = probeOps := by
  unfold mainProbe2
  rcases (playTextButtons p).head? with _ | e
  · rfl
  · by_cases hv : e.visible = true <;> simp [hv]

/-- The operation trace of play-button strategy 3 is the button count followed
by the scan reads. -/
lemma mainProbe3_ops (p : Page) :
    (mainProbe3 p).2 = PageOp.countCheck :: (fallbackScan (p.filter isButtonRole)).2 := by
  unfold mainProbe3
  rcases h : (fallbackScan (p.filter isButtonRole)).1 with _ | e <;> simp [h]

/-- Every operation of the fallback scan is a read. -/
lemma fallbackScan_ops_readOnly (l : List Element) :
    ((fallbackScan l).2).all PageOp.readOnly = true := by
  induction l with
  | nil => rfl
  | cons e rest ih =>
    by_cases ht : strTrim e.text = strPlay
    · by_cases hv : e.visible = true
      · simp [fallbackScan, ht, hv, PageOp.readOnly]
      · simp [fallbackScan, ht, hv, PageOp.readOnly, ih]
    · simp [fallbackScan, ht, PageOp.readOnly, ih]

/-- Every operation of the album cascade is a read. -/
lemma resolveDark_ops_readOnly (p : Page) :
    (resolveDarkSideAlbum p).ops.all PageOp.readOnly = true := by
  rcases h1 : waitForVisible (getByTextExact p darkSideText) with m1 | e1 <;>
    rcases h2 : waitForVisible (getByTextLoose p darkSideText) with m2 | e2 <;>
      rcases h3 : waitForVisible (titleAlbumLocator p) with m3 | e3 <;>
        rcases h4 : waitForVisible (cardLocator p) with m4 | e4 <;>
          simp [resolveDarkSideAlbum, h1, h2, h3, h4, darkProbe1, darkProbe2, darkProbe3,
            darkProbe4, probeOps, PageOp.readOnly]

/-- Every operation of the play-button cascade is a read. -/
lemma resolveMain_ops_readOnly (p : Page) :
    (resolveMainPlayButton p).ops.all PageOp.readOnly = true := by
  rcases h1 : (mainProbe1 p).1 with m1 | e1 <;>
    rcases h2 : (mainProbe2 p).1 with m2 | e2 <;>
      rcases h3 : (mainProbe3 p).1 with m3 | e3 <;>
        simp only [resolveMainPlayButton, h1, h2, h3, mainProbe1_ops, mainProbe2_ops,
          mainProbe3_ops] <;>
        simp [List.all_append, mainOps1, probeOps, PageOp.readOnly,
          fallbackScan_ops_readOnly]

/-- The authentication-modal step succeeds on every session state: both the
primary wait and the alternative-pattern loop live inside try/catch whose
handlers only log and capture evidence. -/
lemma validateAuth_ok (env : Env) : validateAuthStep env = .ok () := by
  unfold validateAuthStep
  cases waitForVisible (getByTextLoose env.afterPlayPage escuteText) <;> rfl

/-- If every step before `st` succeeds and `st` fails, the sequential runner
stops at `st` with its error, having executed exactly the steps up to and
including `st`, each once. -/
lemma runSteps_first_error (env : Env) (st : JStep) (msg : String) :
    ∀ pre post : List JStep,
      (∀ q ∈ pre, q.2 env = .ok ()) → st.2 env = .error msg →
      runSteps env (pre ++ st :: post) = ⟨.error msg, pre.map Prod.fst ++ [st.1]⟩ := by
  intro pre
  induction pre with
  | nil =>
    intro post _ hf
    simp [runSteps, hf]
  | cons q pre ih =>
    intro post h hf
    have hq := h q (List.mem_cons_self q pre)
    have h2 := ih post (fun r hr => h r (List.mem_cons_of_mem q hr)) hf
    simp [runSteps, hq, h2]

/-- Two session states on which every step agrees produce the same run. -/
lemma runSteps_congr (e1 e2 : Env) :
    ∀ l : List JStep, (∀ st ∈ l, st.2 e1 = st.2 e2) → runSteps e1 l = runSteps e2 l := by
  intro l
  induction l with
  | nil => intro _; rfl
  | cons st rest ih =>
    intro h
    have hst := h st (List.mem_cons_self st rest)
    have hr := ih (fun q hq => h q (List.mem_cons_of_mem st hq))
    cases h2 : st.2 e2 <;> simp [runSteps, hst, h2, hr]

-- The claims.

/-- Claim C1: in both strategy cascades, whenever some strategy confirms a
visible element, the resolution returns the element found by the first
(highest-priority) matching strategy together with its name, and the attempt
trace stops at that strategy, so lower-priority strategies are never
evaluated once a higher-priority one has matched. -/
theorem claim1_first_strategy_wins :
    (∀ (p : Page) (pre post : List Strategy) (s : Strategy) (e : Element),
       darkSideStrategies = pre ++ s :: post →
       (∀ q ∈ pre, isOkE (q.2 p).1 = false) →
       (s.2 p).1 = .ok e →
       (resolveDarkSideAlbum p).result = .ok (e, s.1) ∧
       (resolveDarkSideAlbum p).attempted = pre.map Prod.fst ++ [s.1]) ∧
    (∀ (p : Page) (pre post : List Strategy) (s : Strategy) (e : Element),
       mainPlayStrategies = pre ++ s :: post →
       (∀ q ∈ pre, isOkE (q.2 p).1 = false) →
       (s.2 p).1 = .ok e →
       (resolveMainPlayButton p).result = .ok (e, s.1) ∧
       (resolveMainPlayButton p).attempted = pre.map Prod.fst ++ [s.1]) := by
  constructor
  · intro p pre post s e hsplit hpre hs
    rw [dark_eq p, hsplit]
    exact runStrategies_first p s e pre post msgNoStrategies hpre hs
  · intro p pre post s e hsplit hpre hs
    rw [main_eq p, hsplit]
    exact runStrategies_first p s e pre post msgNoStrategies hpre hs

/-- Witness for claim C1: on a results page where the exact-text strategy
matches, the album resolution reports that strategy alone; on an album page
where the role strategy matches, the play-button resolution reports that
strategy alone. -/
theorem claim1_witness :
    (resolveDarkSideAlbum [albumCard]).result = .ok (albumCard, nExact) ∧
    (resolveDarkSideAlbum [albumCard]).attempted = [nExact] ∧
    (resolveMainPlayButton [mainPlayBtn]).result = .ok (mainPlayBtn, nRolePlay) ∧
    (resolveMainPlayButton [mainPlayBtn]).attempted = [nRolePlay] := by
  have h1 := claim1_first_strategy_wins.1 [albumCard] []
    [(nPartialText, darkProbe2), (nTitleAttr, darkProbe3), (nCardFallback, darkProbe4)]
    (nExact, darkProbe1) albumCard rfl
    (fun q hq => absurd hq (List.not_mem_nil q)) rfl
  have h2 := claim1_first_strategy_wins.2 [mainPlayBtn] []
    [(nTextPlay, mainProbe2), (nFallbackPlay, mainProbe3)]
    (nRolePlay, mainProbe1) mainPlayBtn rfl
    (fun q hq => absurd hq (List.not_mem_nil q)) rfl
  exact ⟨h1.1, h1.2, h2.1, h2.2⟩

/-- Counterexample for claim C2 as stated: on the empty page both cascades
exhaust; the album resolution fails with the raw timeout error of its last
strategy, and the play-button resolution fails with the visibility-assertion
error raised at line 468 on the stale strategy-2 locator (the explicit
exhaustion throw of the source, line 462, is unreachable dead code).
Neither error payload lists the attempted strategies. -/
theorem claim2_counterexample :
    (resolveMainPlayButton pEmpty).result = .error msgVisibleAssert ∧
    (resolveMainPlayButton pEmpty).attempted = [nRolePlay, nTextPlay, nFallbackPlay] ∧
    listsStrategies msgVisibleAssert (resolveMainPlayButton pEmpty).attempted = false ∧
    (resolveDarkSideAlbum pEmpty).result = .error msgTimeout ∧
    listsStrategies msgTimeout (resolveDarkSideAlbum pEmpty).attempted = false := by
  exact ⟨rfl, rfl, rfl, rfl, rfl⟩

/-- Claim C2 as amended: when every candidate strategy fails, the resolution
fails; the diagnostics trace of the resolver records exactly the strategies
attempted in attempt order, but the error payload does not list them: the
album resolver propagates the raw timeout error of its last strategy, and
the play-button resolver, whose explicit exhaustion throw is unreachable
dead code, fails with the error of the line-468 visibility assertion on the
stale strategy-2 locator. -/
theorem claim2_exhaustion_reports :
    ∀ p : Page,
      ((∀ s ∈ darkSideStrategies, isOkE (s.2 p).1 = false) →
        isOkE (resolveDarkSideAlbum p).result = false ∧
        (resolveDarkSideAlbum p).attempted =
          [nExact, nPartialText, nTitleAttr, nCardFallback]) ∧
      ((∀ s ∈ mainPlayStrategies, isOkE (s.2 p).1 = false) →
        (resolveMainPlayButton p).result = .error msgVisibleAssert ∧
        staleLocatorAssert p = .error msgVisibleAssert ∧
        (resolveMainPlayButton p).attempted = [nRolePlay, nTextPlay, nFallbackPlay]) := by
  intro p
  constructor
  · intro h
    have hd1 : isOkE (darkProbe1 p).1 = false := h (nExact, darkProbe1) (by simp [darkSideStrategies])
    have hd2 : isOkE (darkProbe2 p).1 = false := h (nPartialText, darkProbe2) (by simp [darkSideStrategies])
    have hd3 : isOkE (darkProbe3 p).1 = false := h (nTitleAttr, darkProbe3) (by simp [darkSideStrategies])
    have hd4 : isOkE (darkProbe4 p).1 = false := h (nCardFallback, darkProbe4) (by simp [darkSideStrategies])
    rcases hx1 : (darkProbe1 p).1 with m1 | e1
    · rcases hx2 : (darkProbe2 p).1 with m2 | e2
      · rcases hx3 : (darkProbe3 p).1 with m3 | e3
        · rcases hx4 : (darkProbe4 p).1 with m4 | e4
          · simp [resolveDarkSideAlbum, hx1, hx2, hx3, hx4, isOkE]
          · rw [hx4] at hd4; simp [isOkE] at hd4
        · rw [hx3] at hd3; simp [isOkE] at hd3
      · rw [hx2] at hd2; simp [isOkE] at hd2
    · rw [hx1] at hd1; simp [isOkE] at hd1
  · intro h
    have hm1 : isOkE (mainProbe1 p).1 = false := h (nRolePlay, mainProbe1) (by simp [mainPlayStrategies])
    have hm2 : isOkE (mainProbe2 p).1 = false := h (nTextPlay, mainProbe2) (by simp [mainPlayStrategies])
    have hm3 : isOkE (mainProbe3 p).1 = false := h (nFallbackPlay, mainProbe3) (by simp [mainPlayStrategies])
    have hstale := stale_assert_fails p hm2
    rcases hx1 : (mainProbe1 p).1 with m1 | e1
    · rcases hx2 : (mainProbe2 p).1 with m2 | e2
      · rcases hx3 : (mainProbe3 p).1 with m3 | e3
        · have hmsg := mainProbe3_err p m3 hx3
          subst hmsg
          refine ⟨?_, hstale, ?_⟩ <;> simp [resolveMainPlayButton, hx1, hx2, hx3]
        · rw [hx3] at hm3; simp [isOkE] at hm3
      · rw [hx2] at hm2; simp [isOkE] at hm2
    · rw [hx1] at hm1; simp [isOkE] at hm1

/-- Witness for claim C2 (amended): on the empty page both cascades exhaust,
with attempt traces listing all strategy names in order, and the play-button
failure carries the error of the stale-locator visibility assertion. -/
theorem claim2_witness :
    isOkE (resolveDarkSideAlbum pEmpty).result = false ∧
    (resolveDarkSideAlbum pEmpty).attempted =
      [nExact, nPartialText, nTitleAttr, nCardFallback] ∧
    (resolveMainPlayButton pEmpty).result = .error msgVisibleAssert ∧
    staleLocatorAssert pEmpty = .error msgVisibleAssert ∧
    (resolveMainPlayButton pEmpty).attempted = [nRolePlay, nTextPlay, nFallbackPlay] := by
  have h := claim2_exhaustion_reports pEmpty
  have h1 := h.1 (by decide)
  have h2 := h.2 (by decide)
  exact ⟨h1.1, h1.2, h2.1, h2.2.1, h2.2.2⟩

/-- Counterexample for claim C3 as stated: a full pt-BR, pink-floyd,
Dark-Side journey trace on which every mandatory assertion holds finishes
with outcome Verified although no visible element containing
`Escute com uma conta gratuita do Spotify` is ever observed. -/
theorem claim3_counterexample :
    (runJourney envHappy).outcome = .ok () ∧
    envHappy.afterPlayPage.all
      (fun e => !(e.visible && ciContains e.text escuteText)) = true := by
  exact ⟨rfl, rfl⟩

/-- Claim C3 as amended: the authentication-prompt observation is a soft
validation, so the run result does not depend on the after-play page at all;
the journey is Verified exactly when the mandatory assertions of the other
steps pass, whether or not the prompt is observed. -/
theorem claim3_outcome_not_tied_to_prompt (env : Env) (p2 : Page) :
    runJourney { env with afterPlayPage := p2 } = runJourney env := by
  unfold runJourney
  apply runSteps_congr
  intro st hst
  simp only [journeySteps, List.mem_cons, List.not_mem_nil, or_false] at hst
  rcases hst with rfl | rfl | rfl | rfl | rfl | rfl | rfl | rfl | rfl | rfl | rfl | rfl
  all_goals try rfl
  show validateAuthStep { env with afterPlayPage := p2 } = validateAuthStep env
  rw [validateAuth_ok, validateAuth_ok]

/-- Witness for claim C3 (amended): replacing the after-play page of the
happy trace by the empty page changes nothing about the run. -/
theorem claim3_witness :
    runJourney { envHappy with afterPlayPage := pEmpty } = runJourney envHappy := by
  exact claim3_outcome_not_tied_to_prompt envHappy pEmpty

/-- Claim C4: step sequencing is strictly ordered; if every step before some
step succeeds and that step fails, the run halts there with the error of
that step, the executed trace lists exactly the steps up to and including the
failing one in order, and no later step is ever invoked nor any step
retried. -/
theorem claim4_strict_sequencing :
    ∀ (env : Env) (pre post : List JStep) (st : JStep) (msg : String),
      journeySteps = pre ++ st :: post →
      (∀ q ∈ pre, q.2 env = .ok ()) →
      st.2 env = .error msg →
      runJourney env = ⟨.error msg, pre.map Prod.fst ++ [st.1]⟩ := by
  intro env pre post st msg hsplit hpre hf
  rw [runJourney, hsplit]
  exact runSteps_first_error env st msg pre post hpre hf

/-- Witness for claim C4: when navigation lands off the expected host, the
run fails in the first step and executes nothing further. -/
theorem claim4_witness :
    runJourney envBadHost = ⟨.error msgUrlAssert, [sNavigate]⟩ := by
  exact claim4_strict_sequencing envBadHost [] (journeySteps.drop 1)
    (sNavigate, navigateStep) msgUrlAssert rfl
    (fun q hq => absurd hq (List.not_mem_nil q)) rfl

/-- Claim C5: optional sub-checks are soft; when the search-suggestion wait
lapses the typing step still succeeds provided its mandatory assertions hold,
and when neither the Portuguese prompt nor any alternative pattern is
observed the authentication step still succeeds, so neither soft miss blocks
the next step or changes the run outcome. -/
theorem claim5_soft_misses_absorbed :
    (∀ (env : Env) (e1 e2 : Element),
       getByTestId env.focusedPage tidSearchInput = [e1] →
       (e1.visible && e1.enabled && e1.editable) = true →
       getByTestId env.typedPage tidSearchInput = [e2] →
       e2.value = queryText →
       isOkE (waitFirstVisible (suggestionLocator env.typedPage)) = false →
       typeQueryStep env = .ok ()) ∧
    (∀ env : Env,
       isOkE (waitForVisible (getByTextLoose env.afterPlayPage escuteText)) = false →
       findAltPattern env.afterPlayPage altPatterns = none →
       validateAuthStep env = .ok ()) := by
  constructor
  · intro env e1 e2 h1 hcond h2 hval _hs
    simp [typeQueryStep, h1, h2, clearFillOn, hcond, hval, tryCatchU_ok]
  · intro env _ _
    exact validateAuth_ok env

/-- Witness for claim C5: on the trace whose typed search input is not
visible (so the suggestion wait lapses) and whose after-play page is empty
(so no Portuguese pattern is observed), both steps succeed. -/
theorem claim5_witness :
    typeQueryStep envSoft = .ok () ∧ validateAuthStep envSoft = .ok () := by
  constructor
  · exact claim5_soft_misses_absorbed.1 envSoft searchInputFocused searchInputHidden
      rfl rfl rfl rfl (by decide)
  · exact claim5_soft_misses_absorbed.2 envSoft (by decide) (by decide)

/-- Counterexample for claim C6 as stated: on a results page where the exact
album text matches two visible elements, the album cascade does not pick the
first match; strict matching makes every strategy fail and the whole
resolution errors out. -/
theorem claim6_counterexample :
    2 ≤ (getByTextExact pDup darkSideText).length ∧
    pDup.all (fun e => e.visible) = true ∧
    isOkE (resolveDarkSideAlbum pDup).result = false := by
  exact ⟨by decide, rfl, rfl⟩

/-- Claim C6 as amended: only the strategies that end in `first()` pick the
first match in document order deterministically (so play-button strategy 2
accepts the head of its candidate list even when more candidates exist),
while the album strategies are strict and treat an ambiguous multi-match as a
failed strategy, falling through to the next one. -/
theorem claim6_ambiguity_handling :
    (∀ (p : Page) (e : Element) (rest : List Element),
       playTextButtons p = e :: rest → e.visible = true →
       (mainProbe2 p).1 = .ok e) ∧
    (∀ p : Page, 2 ≤ (getByTextExact p darkSideText).length →
       (darkProbe1 p).1 = .error msgStrict) := by
  constructor
  · intro p e rest h hv
    simp [mainProbe2, h, hv]
  · intro p h
    rcases hl : getByTextExact p darkSideText with _ | ⟨a, _ | ⟨b, tl⟩⟩
    · rw [hl] at h; simp at h
    · rw [hl] at h; simp at h
    · simp [darkProbe1, waitForVisible, hl]

/-- Witness for claim C6 (amended): with both a main and a tracklist play
button present, strategy 2 returns the first; with a duplicated album entry,
strategy 1 fails with a strict-mode violation. -/
theorem claim6_witness :
    (mainProbe2 pTrackMix).1 = .ok mainPlayBtn ∧
    (darkProbe1 pDup).1 = .error msgStrict := by
  exact ⟨claim6_ambiguity_handling.1 pTrackMix mainPlayBtn [trackRowPlayBtn] rfl rfl,
         claim6_ambiguity_handling.2 pDup (by decide)⟩

/-- Counterexample for claim C7 as stated: the locale-validation step passes
on a session whose page shows no Portuguese indicator text at all, so the
Portuguese-text condition is not a mandatory post-condition of the step. -/
theorem claim7_counterexample :
    validateLanguageStep envHappy = .ok () ∧
    (portugueseElems envHappy.ptBRPage).length = 0 := by
  exact ⟨rfl, rfl⟩

/-- Claim C7 as amended: the Portuguese-text observation of the
locale-validation step is a soft check; the only mandatory
post-condition is that the language-selection button is uniquely resolvable
and visible, and the step then succeeds regardless of any Portuguese
indicator. -/
theorem claim7_locale_check_soft :
    ∀ (env : Env) (e : Element),
      getByTestId env.ptBRPage tidLanguageButton = [e] →
      e.visible = true →
      validateLanguageStep env = .ok () := by
  intro env e h hv
  simp [validateLanguageStep, h, expectVisible, hv, tryCatchU_ok]

/-- Witness for claim C7 (amended): the locale-validation step passes on the
soft trace via the unique visible language button. -/
theorem claim7_witness : validateLanguageStep envSoft = .ok () := by
  exact claim7_locale_check_soft envSoft langBtnHome rfl rfl

/-- Claim C8: probing the candidate strategies performs only read-only page
operations in both cascades; the play step performs no mutating operation
when resolution fails, and on success its only mutating operation is the
single click emitted after the resolution and the read-only assertions. -/
theorem claim8_probing_read_only :
    ∀ p : Page,
      (resolveDarkSideAlbum p).ops.all PageOp.readOnly = true ∧
      (resolveMainPlayButton p).ops.all PageOp.readOnly = true ∧
      (isOkE (locateAndClickPlayStep p).1 = false →
        (locateAndClickPlayStep p).2.all PageOp.readOnly = true) ∧
      (isOkE (locateAndClickPlayStep p).1 = true →
        (locateAndClickPlayStep p).2 =
          (resolveMainPlayButton p).ops ++ [PageOp.readText, PageOp.readAttr, PageOp.click]) := by
  intro p
  refine ⟨resolveDark_ops_readOnly p, resolveMain_ops_readOnly p, ?_, ?_⟩
  · intro hf
    rcases hr : (resolveMainPlayButton p).result with m | ⟨e, n⟩
    · simpa [locateAndClickPlayStep, hr] using resolveMain_ops_readOnly p
    · by_cases hv : e.visible = true
      · by_cases he : e.enabled = true
        · simp [locateAndClickPlayStep, hr, hv, he, isOkE] at hf
        · simpa [locateAndClickPlayStep, hr, hv, he] using resolveMain_ops_readOnly p
      · simpa [locateAndClickPlayStep, hr, hv] using resolveMain_ops_readOnly p
  · intro ht
    rcases hr : (resolveMainPlayButton p).result with m | ⟨e, n⟩
    · simp [locateAndClickPlayStep, hr, isOkE] at ht
    · by_cases hv : e.visible = true
      · by_cases he : e.enabled = true
        · simp [locateAndClickPlayStep, hr, hv, he]
        · simp [locateAndClickPlayStep, hr, hv, he, isOkE] at ht
      · simp [locateAndClickPlayStep, hr, hv, isOkE] at ht

/-- Witness for claim C8: concrete read-only traces on the empty page (where
resolution fails and no click is emitted) and on the album page (where the
click is the final operation after the resolution succeeded). -/
theorem claim8_witness :
    (resolveDarkSideAlbum pEmpty).ops.all PageOp.readOnly = true ∧
    (resolveMainPlayButton pEmpty).ops.all PageOp.readOnly = true ∧
    (locateAndClickPlayStep pEmpty).2.all PageOp.readOnly = true ∧
    (locateAndClickPlayStep [mainPlayBtn]).2 =
      (resolveMainPlayButton [mainPlayBtn]).ops ++
        [PageOp.readText, PageOp.readAttr, PageOp.click] := by
  exact ⟨(claim8_probing_read_only pEmpty).1, (claim8_probing_read_only pEmpty).2.1,
    (claim8_probing_read_only pEmpty).2.2.1 (by decide),
    (claim8_probing_read_only [mainPlayBtn]).2.2.2 (by decide)⟩

/-- Claim C9: in the album-navigation step, once the album entry is located
and clickable, the assertion that the post-click URL contains `/album/` is
mandatory (its failure fails the step), while the album-title confirmation
is soft: even when none of the four indicators is observed the step still
passes. -/
theorem claim9_url_hard_title_soft :
    (∀ (env : Env) (e : Element),
       locateAlbumForClick env.resultsPage = .ok e →
       e.visible = true → e.enabled = true →
       strContains env.albumUrl strAlbumPath = false →
       clickAlbumStep env = .error msgUrlAlbumAssert) ∧
    (∀ (env : Env) (e : Element),
       locateAlbumForClick env.resultsPage = .ok e →
       e.visible = true → e.enabled = true →
       strContains env.albumUrl strAlbumPath = true →
       (albumIndicators env.albumPage).all
         (fun loc => !(isOkE (waitForVisible loc))) = true →
       clickAlbumStep env = .ok ()) := by
  constructor
  · intro env e h hv he hu
    simp [clickAlbumStep, h, hv, he, hu]
  · intro env e h hv he hu _hind
    simp [clickAlbumStep, h, hv, he, hu]

/-- Witness for claim C9: with a bad post-click URL the step fails on the URL
assertion; on the happy trace, where no album-title indicator resolves, the
step passes. -/
theorem claim9_witness :
    clickAlbumStep envBadUrl = .error msgUrlAlbumAssert ∧
    clickAlbumStep envHappy = .ok () := by
  exact ⟨claim9_url_hard_title_soft.1 envBadUrl albumCard rfl rfl rfl (by decide),
         claim9_url_hard_title_soft.2 envHappy albumCard rfl rfl rfl (by decide) (by decide)⟩

/-- Claim C10: whenever any button with `Play` text exists inside the
tracklist area, play-button strategy 1 is rejected regardless of where its
own candidate lies, so the resolution can never be won by the role-based
strategy and falls through to the lower-priority strategies. -/
theorem claim10_tracklist_veto :
    ∀ p : Page, (tracklistPlayButtons p).isEmpty = false →
      (mainProbe1 p).1 = .error msgNoRolePlay ∧
      winningStrategy (resolveMainPlayButton p) ≠ some nRolePlay := by
  intro p h
  have h1 : (mainProbe1 p).1 = .error msgNoRolePlay := by
    unfold mainProbe1
    rcases hh : (rolePlayButtons p).head? with _ | e <;> simp [hh, h]
  refine ⟨h1, ?_⟩
  rcases h2 : (mainProbe2 p).1 with m2 | e2 <;>
    rcases h3 : (mainProbe3 p).1 with m3 | e3 <;>
      simp [resolveMainPlayButton, winningStrategy, h1, h2, h3, nTextPlay, nFallbackPlay,
        nRolePlay]

/-- Witness for claim C10: on a page with a visible main play button outside
the tracklist and one per-track play button inside it, strategy 1 is
rejected and the resolution is not won by the role-based strategy. -/
theorem claim10_witness :
    (mainProbe1 pTrackMix).1 = .error msgNoRolePlay ∧
    winningStrategy (resolveMainPlayButton pTrackMix) ≠ some nRolePlay := by
  exact claim10_tracklist_veto pTrackMix (by decide)

end SpotifyFlow
